import Mathlib

/-!
Verification development for the aggregation layer of
`project/set_of_sites.py` (PYSCSES).

The layer maps a collection of discrete defect sites onto a
one-dimensional grid: per-site occupation probabilities are computed
under a shared electrostatic potential and written into grid-resolved
arrays (energies, probabilities, defect densities).  The collaborator
modules `project/grid.py`, `project/site.py`,
`project/set_up_calculation.py` and `project/constants.py` are not part
of the verified sources; the pieces of them this layer consumes are
modelled from the specification and marked as such.  All numeric values
are modelled as rationals; numpy arrays are modelled as lists of
rationals, with `List.set` for element assignment.
-/

/-- A defect site.  Modelled from the spec: the `Site` class lives in
`project/site.py`, outside the verified sources.  Only the attribute
contract used by the aggregation layer is modelled: a `label`, a
continuous position `x`, an energy landscape `defect_energies`, and a
probability law `probabilities local_potential temperature`. -/
structure Site where
  label : String
  x : ℚ
  defect_energies : List ℚ
  probabilities : ℚ → ℚ → ℚ

/-- A one-dimensional grid.  Modelled from the spec: the `Grid` class
lives in `project/grid.py`, outside the verified sources.  It holds the
ordered ascending gridpoint coordinates `x` and the per-gridpoint cell
`volumes`. -/
structure Grid where
  x : List ℚ
  volumes : List ℚ

/-- The `Set_of_Sites` object groups together all of the `Site` objects
(source: `project/set_of_sites.py`, class `Set_of_Sites`, constructor
stores the site sequence in `self.sites`). -/
structure Set_of_Sites where
  sites : List Site

/-- Modelled from the spec: `index_of_grid_at_x` lives in
`project/grid.py`, outside the verified sources.  Per the spec it finds
the insertion point of `x` in the ascending `grid_x` (the semantics of
`bisect_left` on a sorted list: the length of the prefix of elements
strictly below `x`) and chooses between the left and right neighbour by
minimal absolute distance, ties broken toward the lower index; positions
beyond either end clamp to the boundary index. -/
def index_of_grid_at_x (grid_x : List ℚ) (x : ℚ) : Nat :=
  let pos := (grid_x.takeWhile (fun a => decide (a < x))).length
  if pos = 0 then 0
  else if pos = grid_x.length then grid_x.length - 1
  else if grid_x.getD pos 0 - x < x - grid_x.getD (pos - 1) 0 then pos
  else pos - 1

/-- Modelled from the spec: `phi_at_x` lives in `project/grid.py`,
outside the verified sources.  Per the spec it is linear interpolation
of the array `phi` (defined at the coordinates `grid_x`) at the
continuous coordinate `x`: exact at gridpoints, linear between
neighbours, boundary-value hold beyond either end. -/
def phi_at_x (phi : List ℚ) (grid_x : List ℚ) (x : ℚ) : ℚ :=
  let pos := (grid_x.takeWhile (fun a => decide (a < x))).length
  if pos = 0 then phi.getD 0 0
  else if pos = grid_x.length then phi.getD (grid_x.length - 1) 0
  else
    let x0 := grid_x.getD (pos - 1) 0
    let x1 := grid_x.getD pos 0
    let v0 := phi.getD (pos - 1) 0
    let v1 := phi.getD pos 0
    v0 + (v1 - v0) * (x - x0) / (x1 - x0)

/-- Modelled from the spec: `energy_at_x` lives in `project/grid.py`,
outside the verified sources.  Per the spec its semantics mirror
`phi_at_x`, with the site's own energy record as the interpolated
data. -/
def energy_at_x (defect_energies : List ℚ) (grid_x : List ℚ) (x : ℚ) : ℚ :=
  phi_at_x defect_energies grid_x x

/-- Returns an array of energies at their points on a one-dimensional
grid (source: `project/set_of_sites.py`, lines 40-55).  The source
allocates `np.zeros_like( grid )`; the `Grid` class is outside the
verified sources, so the allocation is modelled from the spec as an
all-zero array sized to `grid.x`.  The loop body is the source's line 54
verbatim: the operator written there is `=+` (assignment of the
unary-plus value), not `+=`, so each site ASSIGNS its contribution at
its nearest-gridpoint index.  The `phi` argument is accepted and unused,
as in the source. -/
def Set_of_Sites.calculate_energies_on_grid (self : Set_of_Sites) (grid : Grid)
    (phi : List ℚ) : List ℚ :=
  self.sites.foldl
    (fun energies_on_grid site =>
      energies_on_grid.set (index_of_grid_at_x grid.x site.x)
        (energy_at_x site.defect_energies grid.x site.x))
    (List.replicate grid.x.length 0)

/-- Calculates the probability of a site being occupied by its
corresponding defect (source: `project/set_of_sites.py`, lines 57-73).
Each site's probability is ASSIGNED (`=`) at its nearest-gridpoint
index into an array initialised by `np.zeros_like( grid.x )`. -/
def Set_of_Sites.calculate_probabilities (self : Set_of_Sites) (grid : Grid)
    (phi : List ℚ) (temp : ℚ) : List ℚ :=
  self.sites.foldl
    (fun probability site =>
      probability.set (index_of_grid_at_x grid.x site.x)
        (site.probabilities (phi_at_x phi grid.x site.x) temp))
    (List.replicate grid.x.length 0)

/-- Calculates the defect density at each site (source:
`project/set_of_sites.py`, lines 75-92).  Each site's probability,
divided by the cell volume at its nearest-gridpoint index, is
ACCUMULATED (`+=`) at that index into an array initialised by
`np.zeros_like( grid.x )`. -/
def Set_of_Sites.calculate_defect_density (self : Set_of_Sites) (grid : Grid)
    (phi : List ℚ) (temp : ℚ) : List ℚ :=
  self.sites.foldl
    (fun defect_density site =>
      let i := index_of_grid_at_x grid.x site.x
      defect_density.set i
        (defect_density.getD i 0 +
          site.probabilities (phi_at_x phi grid.x site.x) temp /
            grid.volumes.getD i 0))
    (List.replicate grid.x.length 0)

/-- Calculates the defect density for a given subset of sites (source:
`project/set_of_sites.py`, lines 94-112).  Identical to
`calculate_defect_density` except the potential is interpolated against
`full_grid.x` while the nearest-gridpoint index, the cell volume and the
output array size use `sub_grid`. -/
def Set_of_Sites.subgrid_calculate_defect_density (self : Set_of_Sites)
    (sub_grid full_grid : Grid) (phi : List ℚ) (temp : ℚ) : List ℚ :=
  self.sites.foldl
    (fun defect_density site =>
      let i := index_of_grid_at_x sub_grid.x site.x
      defect_density.set i
        (defect_density.getD i 0 +
          site.probabilities (phi_at_x phi full_grid.x site.x) temp /
            sub_grid.volumes.getD i 0))
    (List.replicate sub_grid.x.length 0)

/-- Python-level error outcomes used by this layer.  `valueError` is the
builtin exception Python's `min()` raises on an empty sequence;
`typeError` is the exception `Set_of_Sites.__add__` raises;
`dataError` stands for a guarded construction/data error (the code never
produces one). -/
inductive PyErr where
  | valueError
  | typeError
  | dataError
deriving DecidableEq

/-- A dynamically typed Python value, as far as `Set_of_Sites.__add__`
can observe it: either exactly a `Set_of_Sites`, or some other value
(a plain list of `Site`, a string, a number). -/
inductive PyVal where
  | set_of_sites (s : Set_of_Sites)
  | site_list (l : List Site)
  | pystr (s : String)
  | pynum (q : ℚ)

/-- Concatenation of `Set_of_Sites` objects (source:
`project/set_of_sites.py`, lines 16-20, `__add__`).  If `type( other )`
is not `Set_of_Sites` a `TypeError` is raised; otherwise a new
`Set_of_Sites` over the concatenated site sequence is returned. -/
def Set_of_Sites.add (self : Set_of_Sites) (other : PyVal) :
    Except PyErr Set_of_Sites :=
  match other with
  | PyVal.set_of_sites o => Except.ok ⟨self.sites ++ o.sites⟩
  | _ => Except.error PyErr.typeError

/-- One parsed input record.  Modelled from the spec:
`load_site_data` lives in `project/set_up_calculation.py`, outside the
verified sources; each record is a fixed-width row whose position 2 is
the spatial coordinate and position 4 the energy.  The positions the
aggregation layer never touches are summarised by `label` and
`charge`. -/
structure SiteRecord where
  label : String
  charge : ℚ
  x : ℚ
  energy : ℚ
deriving DecidableEq

/-- Python's builtin `min` over a list: raises `ValueError` on an empty
sequence, otherwise folds the binary minimum over the elements. -/
def pymin : List ℚ → Except PyErr ℚ
  | [] => Except.error PyErr.valueError
  | a :: as => Except.ok (as.foldl min a)

/-- Construction from parsed input data (source:
`project/set_of_sites.py`, lines 158-172,
`set_of_sites_from_input_data`).  Modelled from the spec where the
collaborators are missing from the verified sources: `site_data` stands
for the record list `load_site_data input_data limits[0] limits[1]
site_charge offset` returns; `mkSite` stands for `site_from_input_file
line defect_species site_charge core temperature`; `boltzmann_eV` (from
`project/constants.py`) is taken as a parameter.  Faithful to the
source: `min( energies )` is evaluated before either flattening branch,
so an empty record list fails there with Python's `ValueError`; under
`core = "single"` every record whose energy strictly exceeds the
minimum has its energy forced to zero; under `core = "multi_site"`
every record whose energy lies in the closed interval from
`-boltzmann_eV * temperature` to `boltzmann_eV * temperature` has its
energy forced to zero. -/
def set_of_sites_from_input_data (boltzmann_eV : ℚ)
    (mkSite : SiteRecord → Site) (site_data : List SiteRecord)
    (core : String) (temperature : ℚ) : Except PyErr Set_of_Sites :=
  match pymin (site_data.map SiteRecord.energy) with
  | Except.error e => Except.error e
  | Except.ok min_energy =>
    let d1 := if core = "single" then
        site_data.map (fun line =>
          if min_energy < line.energy then ⟨line.label, line.charge, line.x, 0⟩
          else line)
      else site_data
    let d2 := if core = "multi_site" then
        d1.map (fun line =>
          if -boltzmann_eV * temperature ≤ line.energy ∧
              line.energy ≤ boltzmann_eV * temperature then
            ⟨line.label, line.charge, line.x, 0⟩
          else line)
      else d1
    Except.ok ⟨d2.map mkSite⟩

/-!
Store-based model of the same four aggregation methods, used for the
frame/purity properties.  numpy arrays live in an explicit store (a list
of arrays addressed by index); the `Grid` object and the potential are
handed over as references into the store.  Allocation of the fresh
output array appends it at the end of the store; every element
assignment the Python loops perform goes through `writeArr`, and every
read of `grid.x`, `grid.volumes` or `phi` reads the current store, so
any mutation of the inputs by the loops would be visible. -/

abbrev Store := List (List ℚ)

/-- Read the array a reference designates (empty for a dangling
reference). -/
def readArr (st : Store) (r : Nat) : List ℚ := st.getD r []

/-- Element assignment `array[i] = v` on the array a reference
designates. -/
def writeArr (st : Store) (r i : Nat) (v : ℚ) : Store :=
  st.set r ((st.getD r []).set i v)

/-- A `Grid` object seen as references to its `x` and `volumes`
arrays. -/
structure GridR where
  xr : Nat
  vr : Nat

/-- Store-based `calculate_energies_on_grid`: allocates the fresh output
array at the end of the store, then runs the source's assignment loop
through the store.  Returns the final store and the output
reference. -/
def calculate_energies_on_grid_st (st : Store) (sites : List Site)
    (g : GridR) (phir : Nat) : Store × Nat :=
  let out := st.length
  let st1 := st ++ [List.replicate (readArr st g.xr).length 0]
  (sites.foldl
    (fun s site =>
      writeArr s out (index_of_grid_at_x (readArr s g.xr) site.x)
        (energy_at_x site.defect_energies (readArr s g.xr) site.x)) st1,
   out)

/-- Store-based `calculate_probabilities`. -/
def calculate_probabilities_st (st : Store) (sites : List Site)
    (g : GridR) (phir : Nat) (temp : ℚ) : Store × Nat :=
  let out := st.length
  let st1 := st ++ [List.replicate (readArr st g.xr).length 0]
  (sites.foldl
    (fun s site =>
      writeArr s out (index_of_grid_at_x (readArr s g.xr) site.x)
        (site.probabilities
          (phi_at_x (readArr s phir) (readArr s g.xr) site.x) temp)) st1,
   out)

/-- Store-based `calculate_defect_density`. -/
def calculate_defect_density_st (st : Store) (sites : List Site)
    (g : GridR) (phir : Nat) (temp : ℚ) : Store × Nat :=
  let out := st.length
  let st1 := st ++ [List.replicate (readArr st g.xr).length 0]
  (sites.foldl
    (fun s site =>
      writeArr s out (index_of_grid_at_x (readArr s g.xr) site.x)
        ((readArr s out).getD (index_of_grid_at_x (readArr s g.xr) site.x) 0 +
          site.probabilities
            (phi_at_x (readArr s phir) (readArr s g.xr) site.x) temp /
          (readArr s g.vr).getD (index_of_grid_at_x (readArr s g.xr) site.x) 0))
    st1,
   out)

/-- Store-based `subgrid_calculate_defect_density`. -/
def subgrid_calculate_defect_density_st (st : Store) (sites : List Site)
    (sub full : GridR) (phir : Nat) (temp : ℚ) : Store × Nat :=
  let out := st.length
  let st1 := st ++ [List.replicate (readArr st sub.xr).length 0]
  (sites.foldl
    (fun s site =>
      writeArr s out (index_of_grid_at_x (readArr s sub.xr) site.x)
        ((readArr s out).getD (index_of_grid_at_x (readArr s sub.xr) site.x) 0 +
          site.probabilities
            (phi_at_x (readArr s phir) (readArr s full.xr) site.x) temp /
          (readArr s sub.vr).getD
            (index_of_grid_at_x (readArr s sub.xr) site.x) 0))
    st1,
   out)

/-! Concrete fixtures used by the closed theorems and witnesses. -/

/-- A site with a constant energy landscape and a constant probability
law. -/
def siteAt (x e p : ℚ) : Site :=
  ⟨"A", x, List.replicate 5 e, fun _ _ => p⟩

/-- The grid of the spec's concrete scenario: coordinates 0..4, unit
volumes. -/
def gridW : Grid := ⟨[0, 1, 2, 3, 4], [1, 1, 1, 1, 1]⟩

/-- An all-zero potential on `gridW`. -/
def phiW : List ℚ := [0, 0, 0, 0, 0]

/-- A concrete stand-in for `site_from_input_file`: keeps the record's
label, position and energy. -/
def mkSiteW : SiteRecord → Site :=
  fun line => ⟨line.label, line.x, [line.energy], fun _ _ => 0⟩

/-- Records with energies -0.2, -0.2, 0.1 (the spec's `core = single`
scenario). -/
def recsSingle : List SiteRecord :=
  [⟨"A", 0, 0, -1/5⟩, ⟨"A", 0, 1, -1/5⟩, ⟨"A", 0, 2, 1/10⟩]

/-- Records with energies -0.01, 0.03, -0.05 (the spec's
`core = multi_site` scenario, with kT = 0.025). -/
def recsMulti : List SiteRecord :=
  [⟨"A", 0, 0, -1/100⟩, ⟨"A", 0, 1, 3/100⟩, ⟨"A", 0, 2, -1/20⟩]

/-- A concrete store: grid coordinates at reference 0, volumes at
reference 1, potential at reference 2. -/
def stW : Store := [[0, 1, 2, 3, 4], [1, 1, 1, 1, 1], [0, 0, 0, 0, 0]]

/-- The grid of `stW` as references. -/
def gridRW : GridR := ⟨0, 1⟩

/-- Two sites that both map to gridpoint index 1. -/
def sitesW : List Site := [siteAt 1 2 (1/2), siteAt 1 3 (1/3)]

/-! Helper lemmas about list update and the aggregation loops. -/

theorem getD_set_self {α : Type} {l : List α} {i : Nat} {v d : α}
    (h : i < l.length) : (l.set i v).getD i d = v := by
  induction l generalizing i with
  | nil => simp at h
  | cons a as ih =>
    cases i with
    | zero => simp
    | succ n =>
      simp only [List.set_cons_succ, List.getD_cons_succ]
      exact ih (by simpa using h)

theorem getD_set_ne {α : Type} {l : List α} {i j : Nat} {v d : α}
    (h : i ≠ j) : (l.set i v).getD j d = l.getD j d := by
  induction l generalizing i j with
  | nil => simp
  | cons a as ih =>
    cases i with
    | zero =>
      cases j with
      | zero => exact absurd rfl h
      | succ m => simp
    | succ n =>
      cases j with
      | zero => simp
      | succ m =>
        simp only [List.set_cons_succ, List.getD_cons_succ]
        exact ih (fun hh => h (by rw [hh]))

theorem getD_replicate_self {α : Type} (n i : Nat) (d : α) :
    (List.replicate n d).getD i d = d := by
  induction n generalizing i with
  | zero => simp
  | succ m ih =>
    cases i with
    | zero => simp [List.replicate_succ]
    | succ k => simpa [List.replicate_succ] using ih k

theorem foldl_set_length (sites : List Site)
    (f : List ℚ → Site → Nat) (g : List ℚ → Site → ℚ) (init : List ℚ) :
    (sites.foldl (fun arr site => arr.set (f arr site) (g arr site)) init).length
      = init.length := by
  induction sites generalizing init with
  | nil => rfl
  | cons s ss ih =>
    rw [List.foldl_cons, ih]
    exact List.length_set ..

theorem foldl_set_getD (sites : List Site) (ι : Site → Nat) (v : Site → ℚ)
    (init : List ℚ) (i : Nat) (hi : i < init.length) :
    (sites.foldl (fun arr site => arr.set (ι site) (v site)) init).getD i 0 =
      ((sites.filter (fun site => decide (ι site = i))).map v).getLastD
        (init.getD i 0) := by
  induction sites generalizing init with
  | nil => rfl
  | cons s ss ih =>
    rw [List.foldl_cons]
    by_cases h : ι s = i
    · subst h
      rw [List.filter_cons_of_pos (by simp), List.map_cons, List.getLastD_cons]
      rw [ih (init.set (ι s) (v s)) (by simpa [List.length_set] using hi)]
      rw [getD_set_self hi]
    · rw [List.filter_cons_of_neg (by simp [h])]
      rw [ih (init.set (ι s) (v s)) (by simpa [List.length_set] using hi)]
      rw [getD_set_ne h]

theorem foldl_acc_getD (sites : List Site) (ι : Site → Nat) (v : Site → ℚ)
    (init : List ℚ) (i : Nat) (hi : i < init.length) :
    (sites.foldl (fun arr site =>
        arr.set (ι site) (arr.getD (ι site) 0 + v site)) init).getD i 0 =
      init.getD i 0 +
        ((sites.filter (fun site => decide (ι site = i))).map v).sum := by
  induction sites generalizing init with
  | nil => simp
  | cons s ss ih =>
    rw [List.foldl_cons]
    by_cases h : ι s = i
    · subst h
      rw [List.filter_cons_of_pos (by simp)]
      rw [ih _ (by simpa [List.length_set] using hi)]
      rw [getD_set_self hi]
      simp [List.sum_cons]
      ring
    · rw [List.filter_cons_of_neg (by simp [h])]
      rw [ih _ (by simpa [List.length_set] using hi)]
      rw [getD_set_ne h]

theorem foldl_min_le (as : List ℚ) (a : ℚ) :
    as.foldl min a ≤ a ∧ ∀ e ∈ as, as.foldl min a ≤ e := by
  induction as generalizing a with
  | nil => exact ⟨le_refl a, by simp⟩
  | cons b bs ih =>
    rw [List.foldl_cons]
    refine ⟨le_trans (ih (min a b)).1 (min_le_left a b), ?_⟩
    intro e he
    rcases List.mem_cons.mp he with rfl | hmem
    · exact le_trans (ih (min a e)).1 (min_le_right a e)
    · exact (ih (min a b)).2 e hmem

theorem foldl_min_mem (as : List ℚ) (a : ℚ) :
    as.foldl min a = a ∨ as.foldl min a ∈ as := by
  induction as generalizing a with
  | nil => exact Or.inl rfl
  | cons b bs ih =>
    rw [List.foldl_cons]
    rcases ih (min a b) with h | h
    · rw [h]
      rcases le_total a b with hab | hba
      · exact Or.inl (min_eq_left hab)
      · exact Or.inr (by simp [min_eq_right hba])
    · exact Or.inr (List.mem_cons_of_mem b h)

/-! Helper lemmas about the store model. -/

theorem getD_append_lt {α : Type} (l m : List α) (d : α) (t : Nat)
    (h : t < l.length) : (l ++ m).getD t d = l.getD t d := by
  induction l generalizing t with
  | nil => simp at h
  | cons a as ih =>
    cases t with
    | zero => simp
    | succ k => simpa using ih k (by simpa using h)

theorem getD_append_self {α : Type} (l : List α) (z : α) (d : α) :
    (l ++ [z]).getD l.length d = z := by
  induction l with
  | nil => simp
  | cons a as ih => simpa using ih

theorem readArr_append_lt (st : Store) (z : List ℚ) (r : Nat)
    (h : r < st.length) : readArr (st ++ [z]) r = readArr st r :=
  getD_append_lt st [z] [] r h

theorem readArr_append_self (st : Store) (z : List ℚ) :
    readArr (st ++ [z]) st.length = z :=
  getD_append_self st z []

theorem readArr_set_ne (st : Store) (out r : Nat) (l : List ℚ)
    (h : out ≠ r) : readArr (st.set out l) r = readArr st r :=
  getD_set_ne h

theorem readArr_set_self (st : Store) (out : Nat) (l : List ℚ)
    (h : out < st.length) : readArr (st.set out l) out = l :=
  getD_set_self h

theorem store_loop
    (G : List ℚ → List ℚ → List ℚ → List ℚ → List ℚ → Site → List ℚ)
    (sites : List Site) (st : Store) (out a b c d : Nat)
    (hout : out < st.length) :
    (∀ r, r ≠ out →
      readArr (sites.foldl (fun s site =>
        s.set out (G (readArr s out) (readArr s a) (readArr s b)
          (readArr s c) (readArr s d) site)) st) r = readArr st r) ∧
    (a ≠ out → b ≠ out → c ≠ out → d ≠ out →
      readArr (sites.foldl (fun s site =>
        s.set out (G (readArr s out) (readArr s a) (readArr s b)
          (readArr s c) (readArr s d) site)) st) out =
      sites.foldl (fun o site =>
        G o (readArr st a) (readArr st b) (readArr st c) (readArr st d) site)
        (readArr st out)) ∧
    (sites.foldl (fun s site =>
      s.set out (G (readArr s out) (readArr s a) (readArr s b)
        (readArr s c) (readArr s d) site)) st).length = st.length := by
  induction sites generalizing st with
  | nil => exact ⟨fun r hr => rfl, fun _ _ _ _ => rfl, rfl⟩
  | cons s ss ih =>
    obtain ⟨ihframe, ihout, ihlen⟩ :=
      ih (st.set out (G (readArr st out) (readArr st a) (readArr st b)
        (readArr st c) (readArr st d) s)) (by rwa [List.length_set])
    refine ⟨?_, ?_, ?_⟩
    · intro r hr
      rw [List.foldl_cons, ihframe r hr]
      exact readArr_set_ne st out r _ (fun hh => hr hh.symm)
    · intro ha hb hc hd
      rw [List.foldl_cons, ihout ha hb hc hd]
      rw [readArr_set_ne st out a _ (fun hh => ha hh.symm)]
      rw [readArr_set_ne st out b _ (fun hh => hb hh.symm)]
      rw [readArr_set_ne st out c _ (fun hh => hc hh.symm)]
      rw [readArr_set_ne st out d _ (fun hh => hd hh.symm)]
      rw [readArr_set_self st out _ hout]
      rw [List.foldl_cons]
    · rw [List.foldl_cons, ihlen, List.length_set]

theorem calculate_probabilities_st_spec (st : Store) (sites : List Site)
    (g : GridR) (phir : Nat) (temp : ℚ)
    (hx : g.xr < st.length) (hv : g.vr < st.length) (hp : phir < st.length) :
    (calculate_probabilities_st st sites g phir temp).2 = st.length ∧
    (∀ r, r < st.length →
      readArr (calculate_probabilities_st st sites g phir temp).1 r =
        readArr st r) ∧
    readArr (calculate_probabilities_st st sites g phir temp).1
        (calculate_probabilities_st st sites g phir temp).2 =
      Set_of_Sites.calculate_probabilities ⟨sites⟩
        ⟨readArr st g.xr, readArr st g.vr⟩ (readArr st phir) temp ∧
    (calculate_probabilities_st st sites g phir temp).1.length =
      st.length + 1 := by
  have hout : st.length <
      (st ++ [List.replicate (readArr st g.xr).length 0]).length := by simp
  obtain ⟨hframe, hcontents, hlen⟩ := store_loop
    (fun o xa _ pa _ site => o.set (index_of_grid_at_x xa site.x)
      (site.probabilities (phi_at_x pa xa site.x) temp))
    sites (st ++ [List.replicate (readArr st g.xr).length 0])
    st.length g.xr g.vr phir phir hout
  refine ⟨rfl, ?_, ?_, ?_⟩
  · intro r hr
    exact (hframe r (Nat.ne_of_lt hr)).trans
      (readArr_append_lt st _ r hr)
  · have h2 := hcontents (Nat.ne_of_lt hx) (Nat.ne_of_lt hv)
      (Nat.ne_of_lt hp) (Nat.ne_of_lt hp)
    refine h2.trans ?_
    rw [readArr_append_lt st _ _ hx, readArr_append_lt st _ _ hp,
      readArr_append_self st _]
    rfl
  · exact hlen.trans (by simp)

theorem calculate_energies_on_grid_st_spec (st : Store) (sites : List Site)
    (g : GridR) (phir : Nat)
    (hx : g.xr < st.length) (hv : g.vr < st.length) (hp : phir < st.length) :
    (calculate_energies_on_grid_st st sites g phir).2 = st.length ∧
    (∀ r, r < st.length →
      readArr (calculate_energies_on_grid_st st sites g phir).1 r =
        readArr st r) ∧
    readArr (calculate_energies_on_grid_st st sites g phir).1
        (calculate_energies_on_grid_st st sites g phir).2 =
      Set_of_Sites.calculate_energies_on_grid ⟨sites⟩
        ⟨readArr st g.xr, readArr st g.vr⟩ (readArr st phir) ∧
    (calculate_energies_on_grid_st st sites g phir).1.length =
      st.length + 1 := by
  have hout : st.length <
      (st ++ [List.replicate (readArr st g.xr).length 0]).length := by simp
  obtain ⟨hframe, hcontents, hlen⟩ := store_loop
    (fun o xa _ _ _ site => o.set (index_of_grid_at_x xa site.x)
      (energy_at_x site.defect_energies xa site.x))
    sites (st ++ [List.replicate (readArr st g.xr).length 0])
    st.length g.xr g.vr phir phir hout
  refine ⟨rfl, ?_, ?_, ?_⟩
  · intro r hr
    exact (hframe r (Nat.ne_of_lt hr)).trans (readArr_append_lt st _ r hr)
  · have h2 := hcontents (Nat.ne_of_lt hx) (Nat.ne_of_lt hv)
      (Nat.ne_of_lt hp) (Nat.ne_of_lt hp)
    refine h2.trans ?_
    rw [readArr_append_lt st _ _ hx, readArr_append_self st _]
    rfl
  · exact hlen.trans (by simp)

theorem calculate_defect_density_st_spec (st : Store) (sites : List Site)
    (g : GridR) (phir : Nat) (temp : ℚ)
    (hx : g.xr < st.length) (hv : g.vr < st.length) (hp : phir < st.length) :
    (calculate_defect_density_st st sites g phir temp).2 = st.length ∧
    (∀ r, r < st.length →
      readArr (calculate_defect_density_st st sites g phir temp).1 r =
        readArr st r) ∧
    readArr (calculate_defect_density_st st sites g phir temp).1
        (calculate_defect_density_st st sites g phir temp).2 =
      Set_of_Sites.calculate_defect_density ⟨sites⟩
        ⟨readArr st g.xr, readArr st g.vr⟩ (readArr st phir) temp ∧
    (calculate_defect_density_st st sites g phir temp).1.length =
      st.length + 1 := by
  have hout : st.length <
      (st ++ [List.replicate (readArr st g.xr).length 0]).length := by simp
  obtain ⟨hframe, hcontents, hlen⟩ := store_loop
    (fun o xa va pa _ site => o.set (index_of_grid_at_x xa site.x)
      (o.getD (index_of_grid_at_x xa site.x) 0 +
        site.probabilities (phi_at_x pa xa site.x) temp /
          va.getD (index_of_grid_at_x xa site.x) 0))
    sites (st ++ [List.replicate (readArr st g.xr).length 0])
    st.length g.xr g.vr phir phir hout
  refine ⟨rfl, ?_, ?_, ?_⟩
  · intro r hr
    exact (hframe r (Nat.ne_of_lt hr)).trans (readArr_append_lt st _ r hr)
  · have h2 := hcontents (Nat.ne_of_lt hx) (Nat.ne_of_lt hv)
      (Nat.ne_of_lt hp) (Nat.ne_of_lt hp)
    refine h2.trans ?_
    rw [readArr_append_lt st _ _ hx, readArr_append_lt st _ _ hv,
      readArr_append_lt st _ _ hp, readArr_append_self st _]
    rfl
  · exact hlen.trans (by simp)

theorem subgrid_calculate_defect_density_st_spec (st : Store)
    (sites : List Site) (sub full : GridR) (phir : Nat) (temp : ℚ)
    (hsx : sub.xr < st.length) (hsv : sub.vr < st.length)
    (hfx : full.xr < st.length) (hp : phir < st.length) :
    (subgrid_calculate_defect_density_st st sites sub full phir temp).2 =
      st.length ∧
    (∀ r, r < st.length →
      readArr (subgrid_calculate_defect_density_st st sites sub full phir
        temp).1 r = readArr st r) ∧
    readArr (subgrid_calculate_defect_density_st st sites sub full phir
        temp).1
        (subgrid_calculate_defect_density_st st sites sub full phir temp).2 =
      Set_of_Sites.subgrid_calculate_defect_density ⟨sites⟩
        ⟨readArr st sub.xr, readArr st sub.vr⟩
        ⟨readArr st full.xr, readArr st full.vr⟩ (readArr st phir) temp ∧
    (subgrid_calculate_defect_density_st st sites sub full phir temp).1.length
      = st.length + 1 := by
  have hout : st.length <
      (st ++ [List.replicate (readArr st sub.xr).length 0]).length := by simp
  obtain ⟨hframe, hcontents, hlen⟩ := store_loop
    (fun o xa va pa fa site => o.set (index_of_grid_at_x xa site.x)
      (o.getD (index_of_grid_at_x xa site.x) 0 +
        site.probabilities (phi_at_x pa fa site.x) temp /
          va.getD (index_of_grid_at_x xa site.x) 0))
    sites (st ++ [List.replicate (readArr st sub.xr).length 0])
    st.length sub.xr sub.vr phir full.xr hout
  refine ⟨rfl, ?_, ?_, ?_⟩
  · intro r hr
    exact (hframe r (Nat.ne_of_lt hr)).trans (readArr_append_lt st _ r hr)
  · have h2 := hcontents (Nat.ne_of_lt hsx) (Nat.ne_of_lt hsv)
      (Nat.ne_of_lt hp) (Nat.ne_of_lt hfx)
    refine h2.trans ?_
    rw [readArr_append_lt st _ _ hsx, readArr_append_lt st _ _ hsv,
      readArr_append_lt st _ _ hp, readArr_append_lt st _ _ hfx,
      readArr_append_self st _]
    rfl
  · exact hlen.trans (by simp)

/-! Claim theorems. -/

/-- Claim C1: the claim states that `calculate_energies_on_grid`
accumulates each site's interpolated energy contribution into its
nearest-gridpoint index, so that sites sharing an index sum.  The source
(line 54) writes `=+` (assignment of the unary-plus value), not `+=`:
with two sites that both map to index 1 of the grid 0..4 and contribute
constant energies 2 and 3, the entry at index 1 is 3 — only the last
site's contribution — not the sum 5. -/
theorem c1_energies_on_grid_overwrites :
    Set_of_Sites.calculate_energies_on_grid ⟨[siteAt 1 2 0, siteAt 1 3 0]⟩
      gridW phiW = [0, 3, 0, 0, 0] ∧
    (Set_of_Sites.calculate_energies_on_grid ⟨[siteAt 1 2 0, siteAt 1 3 0]⟩
      gridW phiW).getD 1 0 ≠ 2 + 3 := by
  have h : Set_of_Sites.calculate_energies_on_grid
      ⟨[siteAt 1 2 0, siteAt 1 3 0]⟩ gridW phiW = [0, 3, 0, 0, 0] := by
    norm_num [Set_of_Sites.calculate_energies_on_grid, siteAt, gridW, phiW,
      index_of_grid_at_x, energy_at_x, phi_at_x, List.takeWhile,
      List.replicate]
  exact ⟨h, by rw [h]; norm_num⟩

/-- Claim C3: `calculate_probabilities` assigns (does not accumulate)
each site's probability at its nearest-gridpoint index: every entry of
the result equals the probability of the last site in iteration order
mapping to that index, or 0 when no site maps there. -/
theorem c3_probabilities_last_writer_wins (s : Set_of_Sites) (g : Grid)
    (phi : List ℚ) (temp : ℚ) (i : Nat) (hi : i < g.x.length) :
    (s.calculate_probabilities g phi temp).getD i 0 =
      ((s.sites.filter (fun site =>
          decide (index_of_grid_at_x g.x site.x = i))).map
        (fun site => site.probabilities (phi_at_x phi g.x site.x) temp)
       ).getLastD 0 := by
  have h := foldl_set_getD s.sites
    (fun site => index_of_grid_at_x g.x site.x)
    (fun site => site.probabilities (phi_at_x phi g.x site.x) temp)
    (List.replicate g.x.length 0) i (by simpa using hi)
  rw [getD_replicate_self] at h
  exact h

/-- Witness for C3: two sites with probabilities 1/2 and 1/3 both map to
index 1; the entry holds the last site's probability 1/3, not 5/6. -/
theorem c3_witness :
    (Set_of_Sites.calculate_probabilities ⟨sitesW⟩ gridW phiW 300).getD 1 0
      = 1/3 :=
  (c3_probabilities_last_writer_wins ⟨sitesW⟩ gridW phiW 300 1
      (by norm_num [gridW])).trans
    (by norm_num [sitesW, siteAt, gridW, phiW, index_of_grid_at_x,
      phi_at_x, List.takeWhile, List.filter])

/-- Claim C4: `calculate_defect_density` is additive over co-located
sites: every entry equals the sum, over the sites mapping to that index,
of the site's probability divided by the cell volume at that index; and
at the spec's concrete scenario (grid 0..4, unit volumes, sites at 1.05
and 0.96 with probability 1/2 each) the result is [0, 1, 0, 0, 0]. -/
theorem c4_defect_density_additive :
    (∀ (s : Set_of_Sites) (g : Grid) (phi : List ℚ) (temp : ℚ) (i : Nat),
      i < g.x.length →
      (s.calculate_defect_density g phi temp).getD i 0 =
        ((s.sites.filter (fun site =>
            decide (index_of_grid_at_x g.x site.x = i))).map
          (fun site => site.probabilities (phi_at_x phi g.x site.x) temp /
            g.volumes.getD i 0)).sum) ∧
    Set_of_Sites.calculate_defect_density
        ⟨[siteAt (21/20) 0 (1/2), siteAt (24/25) 0 (1/2)]⟩ gridW phiW 300 =
      [0, 1, 0, 0, 0] := by
  constructor
  · intro s g phi temp i hi
    have h := foldl_acc_getD s.sites
      (fun site => index_of_grid_at_x g.x site.x)
      (fun site => site.probabilities (phi_at_x phi g.x site.x) temp /
        g.volumes.getD (index_of_grid_at_x g.x site.x) 0)
      (List.replicate g.x.length 0) i (by simpa using hi)
    rw [getD_replicate_self, zero_add] at h
    refine h.trans (congrArg List.sum (List.map_congr_left ?_))
    intro site hmem
    have hidx : index_of_grid_at_x g.x site.x = i := by
      simpa using (List.mem_filter.mp hmem).2
    rw [hidx]
  · norm_num [Set_of_Sites.calculate_defect_density, siteAt, gridW, phiW,
      index_of_grid_at_x, phi_at_x, List.takeWhile, List.replicate,
      List.set, List.cons_ne_nil]

/-- Witness for C4: the additivity formula applied at the spec's
concrete scenario, index 1. -/
theorem c4_witness :
    (Set_of_Sites.calculate_defect_density
        ⟨[siteAt (21/20) 0 (1/2), siteAt (24/25) 0 (1/2)]⟩ gridW phiW
        300).getD 1 0 =
      ((([siteAt (21/20) 0 (1/2), siteAt (24/25) 0 (1/2)].filter (fun site =>
          decide (index_of_grid_at_x gridW.x site.x = 1))).map
        (fun site => site.probabilities (phi_at_x phiW gridW.x site.x) 300 /
          gridW.volumes.getD 1 0)).sum) :=
  c4_defect_density_additive.1
    ⟨[siteAt (21/20) 0 (1/2), siteAt (24/25) 0 (1/2)]⟩ gridW phiW 300 1
    (by norm_num [gridW])

/-- Claim C2: each of the four aggregation methods returns an array
whose length equals the length of the target grid's coordinate sequence
`x` (for `calculate_energies_on_grid` this relies on the spec-modelled
allocation, since the source's `np.zeros_like( grid )` sizes the array
through the out-of-source `Grid` class), and every entry at an index to
which no site maps is zero. -/
theorem c2_output_length_and_zero_defaults (s : Set_of_Sites)
    (g sub full : Grid) (phi : List ℚ) (temp : ℚ) (i : Nat)
    (hig : i < g.x.length) (hisub : i < sub.x.length)
    (hg : ∀ site ∈ s.sites, index_of_grid_at_x g.x site.x ≠ i)
    (hsub : ∀ site ∈ s.sites, index_of_grid_at_x sub.x site.x ≠ i) :
    (s.calculate_energies_on_grid g phi).length = g.x.length ∧
    (s.calculate_probabilities g phi temp).length = g.x.length ∧
    (s.calculate_defect_density g phi temp).length = g.x.length ∧
    (s.subgrid_calculate_defect_density sub full phi temp).length =
      sub.x.length ∧
    (s.calculate_energies_on_grid g phi).getD i 0 = 0 ∧
    (s.calculate_probabilities g phi temp).getD i 0 = 0 ∧
    (s.calculate_defect_density g phi temp).getD i 0 = 0 ∧
    (s.subgrid_calculate_defect_density sub full phi temp).getD i 0 = 0 := by
  have hfg : s.sites.filter (fun site =>
      decide (index_of_grid_at_x g.x site.x = i)) = [] :=
    List.filter_eq_nil_iff.mpr (fun a ha => by simpa using hg a ha)
  have hfs : s.sites.filter (fun site =>
      decide (index_of_grid_at_x sub.x site.x = i)) = [] :=
    List.filter_eq_nil_iff.mpr (fun a ha => by simpa using hsub a ha)
  refine ⟨?_, ?_, ?_, ?_, ?_, ?_, ?_, ?_⟩
  · exact (foldl_set_length s.sites
      (fun _ site => index_of_grid_at_x g.x site.x)
      (fun _ site => energy_at_x site.defect_energies g.x site.x)
      (List.replicate g.x.length 0)).trans (by simp)
  · exact (foldl_set_length s.sites
      (fun _ site => index_of_grid_at_x g.x site.x)
      (fun _ site => site.probabilities (phi_at_x phi g.x site.x) temp)
      (List.replicate g.x.length 0)).trans (by simp)
  · exact (foldl_set_length s.sites
      (fun _ site => index_of_grid_at_x g.x site.x)
      (fun arr site => arr.getD (index_of_grid_at_x g.x site.x) 0 +
        site.probabilities (phi_at_x phi g.x site.x) temp /
          g.volumes.getD (index_of_grid_at_x g.x site.x) 0)
      (List.replicate g.x.length 0)).trans (by simp)
  · exact (foldl_set_length s.sites
      (fun _ site => index_of_grid_at_x sub.x site.x)
      (fun arr site => arr.getD (index_of_grid_at_x sub.x site.x) 0 +
        site.probabilities (phi_at_x phi full.x site.x) temp /
          sub.volumes.getD (index_of_grid_at_x sub.x site.x) 0)
      (List.replicate sub.x.length 0)).trans (by simp)
  · have h := foldl_set_getD s.sites
      (fun site => index_of_grid_at_x g.x site.x)
      (fun site => energy_at_x site.defect_energies g.x site.x)
      (List.replicate g.x.length 0) i (by simpa using hig)
    rw [getD_replicate_self, hfg] at h
    exact h.trans (by simp)
  · have h := foldl_set_getD s.sites
      (fun site => index_of_grid_at_x g.x site.x)
      (fun site => site.probabilities (phi_at_x phi g.x site.x) temp)
      (List.replicate g.x.length 0) i (by simpa using hig)
    rw [getD_replicate_self, hfg] at h
    exact h.trans (by simp)
  · have h := foldl_acc_getD s.sites
      (fun site => index_of_grid_at_x g.x site.x)
      (fun site => site.probabilities (phi_at_x phi g.x site.x) temp /
        g.volumes.getD (index_of_grid_at_x g.x site.x) 0)
      (List.replicate g.x.length 0) i (by simpa using hig)
    rw [getD_replicate_self, hfg] at h
    exact h.trans (by simp)
  · have h := foldl_acc_getD s.sites
      (fun site => index_of_grid_at_x sub.x site.x)
      (fun site => site.probabilities (phi_at_x phi full.x site.x) temp /
        sub.volumes.getD (index_of_grid_at_x sub.x site.x) 0)
      (List.replicate sub.x.length 0) i (by simpa using hisub)
    rw [getD_replicate_self, hfs] at h
    exact h.trans (by simp)

/-- Witness for C2: one site at x = 0 (nearest index 0) on the grid
0..4; index 3 receives no site, and all four outputs have length 5. -/
theorem c2_witness :
    (Set_of_Sites.calculate_energies_on_grid ⟨[siteAt 0 1 (1/2)]⟩ gridW
      phiW).length = gridW.x.length ∧
    (Set_of_Sites.calculate_probabilities ⟨[siteAt 0 1 (1/2)]⟩ gridW phiW
      300).length = gridW.x.length ∧
    (Set_of_Sites.calculate_defect_density ⟨[siteAt 0 1 (1/2)]⟩ gridW phiW
      300).length = gridW.x.length ∧
    (Set_of_Sites.subgrid_calculate_defect_density ⟨[siteAt 0 1 (1/2)]⟩
      gridW gridW phiW 300).length = gridW.x.length ∧
    (Set_of_Sites.calculate_energies_on_grid ⟨[siteAt 0 1 (1/2)]⟩ gridW
      phiW).getD 3 0 = 0 ∧
    (Set_of_Sites.calculate_probabilities ⟨[siteAt 0 1 (1/2)]⟩ gridW phiW
      300).getD 3 0 = 0 ∧
    (Set_of_Sites.calculate_defect_density ⟨[siteAt 0 1 (1/2)]⟩ gridW phiW
      300).getD 3 0 = 0 ∧
    (Set_of_Sites.subgrid_calculate_defect_density ⟨[siteAt 0 1 (1/2)]⟩
      gridW gridW phiW 300).getD 3 0 = 0 :=
  c2_output_length_and_zero_defaults ⟨[siteAt 0 1 (1/2)]⟩ gridW gridW gridW
    phiW 300 3 (by norm_num [gridW]) (by norm_num [gridW])
    (fun site hs => by
      rcases List.mem_singleton.mp hs with rfl
      norm_num [siteAt, gridW, index_of_grid_at_x, List.takeWhile])
    (fun site hs => by
      rcases List.mem_singleton.mp hs with rfl
      norm_num [siteAt, gridW, index_of_grid_at_x, List.takeWhile])

/-- Claim C6: `subgrid_calculate_defect_density` interpolates the
potential against `full_grid.x` while the nearest-gridpoint index and
the normalizing cell volume come from `sub_grid`, accumulating
co-located sites by addition; with `sub_grid = full_grid` it coincides
with `calculate_defect_density`. -/
theorem c6_subgrid_density (s : Set_of_Sites) (sub full : Grid)
    (phi : List ℚ) (temp : ℚ) (i : Nat) (hi : i < sub.x.length) :
    (s.subgrid_calculate_defect_density sub full phi temp).getD i 0 =
      ((s.sites.filter (fun site =>
          decide (index_of_grid_at_x sub.x site.x = i))).map
        (fun site => site.probabilities (phi_at_x phi full.x site.x) temp /
          sub.volumes.getD i 0)).sum ∧
    s.subgrid_calculate_defect_density sub sub phi temp =
      s.calculate_defect_density sub phi temp := by
  constructor
  · have h := foldl_acc_getD s.sites
      (fun site => index_of_grid_at_x sub.x site.x)
      (fun site => site.probabilities (phi_at_x phi full.x site.x) temp /
        sub.volumes.getD (index_of_grid_at_x sub.x site.x) 0)
      (List.replicate sub.x.length 0) i (by simpa using hi)
    rw [getD_replicate_self, zero_add] at h
    refine h.trans (congrArg List.sum (List.map_congr_left ?_))
    intro site hmem
    have hidx : index_of_grid_at_x sub.x site.x = i := by
      simpa using (List.mem_filter.mp hmem).2
    rw [hidx]
  · rfl

/-- Witness for C6 on a restricted sub-grid with coordinates [0, 1] and
volumes [2, 2] inside the full grid 0..4. -/
theorem c6_witness :
    (Set_of_Sites.subgrid_calculate_defect_density
        ⟨[siteAt (21/20) 0 (1/2)]⟩ ⟨[0, 1], [2, 2]⟩ gridW phiW 300).getD 1 0
      =
      (([siteAt (21/20) 0 (1/2)].filter (fun site =>
          decide (index_of_grid_at_x ([0, 1] : List ℚ) site.x = 1))).map
        (fun site => site.probabilities
          (phi_at_x phiW gridW.x site.x) 300 /
            ([2, 2] : List ℚ).getD 1 0)).sum ∧
    Set_of_Sites.subgrid_calculate_defect_density
        ⟨[siteAt (21/20) 0 (1/2)]⟩ ⟨[0, 1], [2, 2]⟩ ⟨[0, 1], [2, 2]⟩ phiW
        300 =
      Set_of_Sites.calculate_defect_density ⟨[siteAt (21/20) 0 (1/2)]⟩
        ⟨[0, 1], [2, 2]⟩ phiW 300 :=
  c6_subgrid_density ⟨[siteAt (21/20) 0 (1/2)]⟩ ⟨[0, 1], [2, 2]⟩ gridW phiW
    300 1 (by norm_num)

/-- Counterexample for claim C5: with zero loaded records,
`set_of_sites_from_input_data` fails with the unguarded `ValueError`
that Python's `min()` raises on an empty sequence (the `min( energies )`
on line 162 is evaluated before any guard), which is not a guarded
construction/data error. -/
theorem c5_counterexample :
    set_of_sites_from_input_data (1/11604) mkSiteW [] "single" 300 =
      Except.error PyErr.valueError ∧
    PyErr.valueError ≠ PyErr.dataError :=
  ⟨rfl, by decide⟩

/-- Amended claim C5: for every configuration in which loading yields
zero records, `set_of_sites_from_input_data` fails with the unguarded
`ValueError` from `min()` of the empty energy sequence, for every core
policy and temperature. -/
theorem c5_empty_records_raise_valueerror (k T : ℚ)
    (mk : SiteRecord → Site) (core : String) :
    set_of_sites_from_input_data k mk [] core T =
      Except.error PyErr.valueError := rfl

/-- Claim C7: under `core = "single"`, `set_of_sites_from_input_data`
zeroes the energy of exactly those records whose energy strictly exceeds
the minimum energy across all loaded records (so records tied at the
minimum are preserved), and builds one site per flattened record. -/
theorem c7_single_flattening (k T : ℚ) (mk : SiteRecord → Site)
    (records : List SiteRecord) (m : ℚ)
    (hm : pymin (records.map SiteRecord.energy) = Except.ok m) :
    m ∈ records.map SiteRecord.energy ∧
    (∀ e ∈ records.map SiteRecord.energy, m ≤ e) ∧
    set_of_sites_from_input_data k mk records "single" T =
      Except.ok ⟨(records.map (fun line =>
        if m < line.energy then ⟨line.label, line.charge, line.x, 0⟩
        else line)).map mk⟩ := by
  refine ⟨?_, ?_, ?_⟩
  · cases records with
    | nil => simp [pymin] at hm
    | cons r rs =>
      have hm2 : (rs.map SiteRecord.energy).foldl min r.energy = m := by
        simpa [pymin] using hm
      rcases foldl_min_mem (rs.map SiteRecord.energy) r.energy with h | h
      · rw [← hm2, h]
        exact List.mem_cons_self ..
      · rw [← hm2]
        exact List.mem_cons_of_mem _ h
  · cases records with
    | nil => simp [pymin] at hm
    | cons r rs =>
      have hm2 : (rs.map SiteRecord.energy).foldl min r.energy = m := by
        simpa [pymin] using hm
      intro e he
      rcases List.mem_cons.mp he with rfl | hmem
      · rw [← hm2]
        exact (foldl_min_le _ _).1
      · rw [← hm2]
        exact (foldl_min_le _ _).2 e hmem
  · simp only [set_of_sites_from_input_data, hm]
    norm_num
    rw [if_neg (by decide)]
    simp [List.map_map]

/-- Witness for C7 at the spec's concrete scenario: records with
energies -0.2, -0.2, 0.1; the minimum is -0.2, so only the third
record's energy is zeroed while the two records tied at the minimum are
preserved. -/
theorem c7_witness :
    ((-1/5 : ℚ) ∈ recsSingle.map SiteRecord.energy ∧
    (∀ e ∈ recsSingle.map SiteRecord.energy, (-1/5 : ℚ) ≤ e) ∧
    set_of_sites_from_input_data (1/11604) mkSiteW recsSingle "single" 300 =
      Except.ok ⟨(recsSingle.map (fun line =>
        if (-1/5 : ℚ) < line.energy then
          ⟨line.label, line.charge, line.x, 0⟩
        else line)).map mkSiteW⟩) :=
  c7_single_flattening (1/11604) 300 mkSiteW recsSingle (-1/5)
    (by norm_num [pymin, recsSingle])

/-- Claim C8: under `core = "multi_site"`, `set_of_sites_from_input_data`
zeroes the energy of exactly those records whose energy lies in the
closed interval from `-boltzmann_eV * temperature` to
`boltzmann_eV * temperature`, leaving all other energies unchanged. -/
theorem c8_multi_site_flattening (k T : ℚ) (mk : SiteRecord → Site)
    (records : List SiteRecord) (h : records ≠ []) :
    set_of_sites_from_input_data k mk records "multi_site" T =
      Except.ok ⟨(records.map (fun line =>
        if -k * T ≤ line.energy ∧ line.energy ≤ k * T then
          ⟨line.label, line.charge, line.x, 0⟩
        else line)).map mk⟩ := by
  cases records with
  | nil => exact absurd rfl h
  | cons r rs =>
    simp only [set_of_sites_from_input_data, List.map_cons, pymin]
    norm_num
    rw [if_neg (by decide)]
    simp [List.map_map]

/-- Witness for C8 at the spec's concrete scenario: kT = 0.025 and
energies -0.01, 0.03, -0.05 flatten to 0, 0.03, -0.05. -/
theorem c8_witness :
    recsMulti ≠ [] ∧
    set_of_sites_from_input_data (1/40) mkSiteW recsMulti "multi_site" 1 =
      Except.ok ⟨(recsMulti.map (fun line =>
        if -(1/40 : ℚ) * 1 ≤ line.energy ∧ line.energy ≤ (1/40 : ℚ) * 1 then
          ⟨line.label, line.charge, line.x, 0⟩
        else line)).map mkSiteW⟩ :=
  ⟨by simp [recsMulti],
   c8_multi_site_flattening (1/40) 1 mkSiteW recsMulti (by simp [recsMulti])⟩

/-- Claim C10: `Set_of_Sites.__add__` raises `TypeError` whenever the
right operand is not a `Set_of_Sites` (for instance a plain list of
sites), and concatenation succeeds only when both operands are
`Set_of_Sites`, in which case the site sequences concatenate. -/
theorem c10_add_type_check (s : Set_of_Sites) (other : PyVal) :
    ((∀ o : Set_of_Sites, other ≠ PyVal.set_of_sites o) →
      Set_of_Sites.add s other = Except.error PyErr.typeError) ∧
    (∀ r : Set_of_Sites, Set_of_Sites.add s other = Except.ok r →
      ∃ o : Set_of_Sites, other = PyVal.set_of_sites o ∧
        r.sites = s.sites ++ o.sites) := by
  constructor
  · intro h
    cases other with
    | set_of_sites o => exact absurd rfl (h o)
    | site_list l => rfl
    | pystr t => rfl
    | pynum q => rfl
  · intro r hr
    cases other with
    | set_of_sites o =>
      refine ⟨o, rfl, ?_⟩
      have h2 : (⟨s.sites ++ o.sites⟩ : Set_of_Sites) = r :=
        Except.ok.inj hr
      rw [← h2]
    | site_list l => exact absurd hr (by simp [Set_of_Sites.add])
    | pystr t => exact absurd hr (by simp [Set_of_Sites.add])
    | pynum q => exact absurd hr (by simp [Set_of_Sites.add])

/-- Witness for C10: adding a plain list of sites raises `TypeError`. -/
theorem c10_witness :
    Set_of_Sites.add ⟨sitesW⟩ (PyVal.site_list sitesW) =
      Except.error PyErr.typeError :=
  (c10_add_type_check ⟨sitesW⟩ (PyVal.site_list sitesW)).1
    (fun o h => PyVal.noConfusion h)

/-- Claim C9: the four aggregation methods are pure: each call returns a
freshly allocated output array (its reference is the old end of the
store), leaves every previously allocated array — in particular the
grid coordinates, the volumes and the potential — unchanged, produces
exactly the array the functional definitions describe on the values read
from the store, and a repeated call on the resulting store returns an
output array with equal contents.  The site sequence is passed by value
and the loops never rebind it. -/
theorem c9_aggregation_not_mutating (st : Store) (sites : List Site)
    (g sub full : GridR) (phir : Nat) (temp : ℚ) (r : Nat)
    (hx : g.xr < st.length) (hv : g.vr < st.length)
    (hsx : sub.xr < st.length) (hsv : sub.vr < st.length)
    (hfx : full.xr < st.length) (hfv : full.vr < st.length)
    (hp : phir < st.length) (hr : r < st.length) :
    (calculate_energies_on_grid_st st sites g phir).2 = st.length ∧
    readArr (calculate_energies_on_grid_st st sites g phir).1 r =
      readArr st r ∧
    readArr (calculate_energies_on_grid_st st sites g phir).1
        (calculate_energies_on_grid_st st sites g phir).2 =
      Set_of_Sites.calculate_energies_on_grid ⟨sites⟩
        ⟨readArr st g.xr, readArr st g.vr⟩ (readArr st phir) ∧
    readArr (calculate_energies_on_grid_st
          (calculate_energies_on_grid_st st sites g phir).1 sites g phir).1
        (calculate_energies_on_grid_st
          (calculate_energies_on_grid_st st sites g phir).1 sites g phir).2 =
      readArr (calculate_energies_on_grid_st st sites g phir).1
        (calculate_energies_on_grid_st st sites g phir).2 ∧
    (calculate_probabilities_st st sites g phir temp).2 = st.length ∧
    readArr (calculate_probabilities_st st sites g phir temp).1 r =
      readArr st r ∧
    readArr (calculate_probabilities_st st sites g phir temp).1
        (calculate_probabilities_st st sites g phir temp).2 =
      Set_of_Sites.calculate_probabilities ⟨sites⟩
        ⟨readArr st g.xr, readArr st g.vr⟩ (readArr st phir) temp ∧
    readArr (calculate_probabilities_st
          (calculate_probabilities_st st sites g phir temp).1 sites g phir
          temp).1
        (calculate_probabilities_st
          (calculate_probabilities_st st sites g phir temp).1 sites g phir
          temp).2 =
      readArr (calculate_probabilities_st st sites g phir temp).1
        (calculate_probabilities_st st sites g phir temp).2 ∧
    (calculate_defect_density_st st sites g phir temp).2 = st.length ∧
    readArr (calculate_defect_density_st st sites g phir temp).1 r =
      readArr st r ∧
    readArr (calculate_defect_density_st st sites g phir temp).1
        (calculate_defect_density_st st sites g phir temp).2 =
      Set_of_Sites.calculate_defect_density ⟨sites⟩
        ⟨readArr st g.xr, readArr st g.vr⟩ (readArr st phir) temp ∧
    readArr (calculate_defect_density_st
          (calculate_defect_density_st st sites g phir temp).1 sites g phir
          temp).1
        (calculate_defect_density_st
          (calculate_defect_density_st st sites g phir temp).1 sites g phir
          temp).2 =
      readArr (calculate_defect_density_st st sites g phir temp).1
        (calculate_defect_density_st st sites g phir temp).2 ∧
    (subgrid_calculate_defect_density_st st sites sub full phir temp).2 =
      st.length ∧
    readArr (subgrid_calculate_defect_density_st st sites sub full phir
        temp).1 r = readArr st r ∧
    readArr (subgrid_calculate_defect_density_st st sites sub full phir
          temp).1
        (subgrid_calculate_defect_density_st st sites sub full phir temp).2 =
      Set_of_Sites.subgrid_calculate_defect_density ⟨sites⟩
        ⟨readArr st sub.xr, readArr st sub.vr⟩
        ⟨readArr st full.xr, readArr st full.vr⟩ (readArr st phir) temp ∧
    readArr (subgrid_calculate_defect_density_st
          (subgrid_calculate_defect_density_st st sites sub full phir
            temp).1 sites sub full phir temp).1
        (subgrid_calculate_defect_density_st
          (subgrid_calculate_defect_density_st st sites sub full phir
            temp).1 sites sub full phir temp).2 =
      readArr (subgrid_calculate_defect_density_st st sites sub full phir
          temp).1
        (subgrid_calculate_defect_density_st st sites sub full phir temp).2
    := by
  obtain ⟨ea, ef, ec, el⟩ :=
    calculate_energies_on_grid_st_spec st sites g phir hx hv hp
  obtain ⟨pa, pf, pc, pl⟩ :=
    calculate_probabilities_st_spec st sites g phir temp hx hv hp
  obtain ⟨da, df, dc, dl⟩ :=
    calculate_defect_density_st_spec st sites g phir temp hx hv hp
  obtain ⟨sa, sf, sc, sl⟩ :=
    subgrid_calculate_defect_density_st_spec st sites sub full phir temp
      hsx hsv hfx hp
  obtain ⟨ea2, ef2, ec2, el2⟩ := calculate_energies_on_grid_st_spec
    (calculate_energies_on_grid_st st sites g phir).1 sites g phir
    (by rw [el]; exact Nat.lt_succ_of_lt hx)
    (by rw [el]; exact Nat.lt_succ_of_lt hv)
    (by rw [el]; exact Nat.lt_succ_of_lt hp)
  obtain ⟨pa2, pf2, pc2, pl2⟩ := calculate_probabilities_st_spec
    (calculate_probabilities_st st sites g phir temp).1 sites g phir temp
    (by rw [pl]; exact Nat.lt_succ_of_lt hx)
    (by rw [pl]; exact Nat.lt_succ_of_lt hv)
    (by rw [pl]; exact Nat.lt_succ_of_lt hp)
  obtain ⟨da2, df2, dc2, dl2⟩ := calculate_defect_density_st_spec
    (calculate_defect_density_st st sites g phir temp).1 sites g phir temp
    (by rw [dl]; exact Nat.lt_succ_of_lt hx)
    (by rw [dl]; exact Nat.lt_succ_of_lt hv)
    (by rw [dl]; exact Nat.lt_succ_of_lt hp)
  obtain ⟨sa2, sf2, sc2, sl2⟩ := subgrid_calculate_defect_density_st_spec
    (subgrid_calculate_defect_density_st st sites sub full phir temp).1
    sites sub full phir temp
    (by rw [sl]; exact Nat.lt_succ_of_lt hsx)
    (by rw [sl]; exact Nat.lt_succ_of_lt hsv)
    (by rw [sl]; exact Nat.lt_succ_of_lt hfx)
    (by rw [sl]; exact Nat.lt_succ_of_lt hp)
  refine ⟨ea, ef r hr, ec, ?_, pa, pf r hr, pc, ?_, da, df r hr, dc, ?_,
    sa, sf r hr, sc, ?_⟩
  · rw [ec2, ef g.xr hx, ef g.vr hv, ef phir hp]
    exact ec.symm
  · rw [pc2, pf g.xr hx, pf g.vr hv, pf phir hp]
    exact pc.symm
  · rw [dc2, df g.xr hx, df g.vr hv, df phir hp]
    exact dc.symm
  · rw [sc2, sf sub.xr hsx, sf sub.vr hsv, sf full.xr hfx, sf full.vr hfv,
      sf phir hp]
    exact sc.symm

/-- Witness for C9 on the concrete store `stW` (coordinates at reference
0, volumes at reference 1, potential at reference 2) with the two sites
of `sitesW`, checked at reference 0. -/
theorem c9_witness :
    (calculate_energies_on_grid_st stW sitesW gridRW 2).2 = stW.length ∧
    readArr (calculate_energies_on_grid_st stW sitesW gridRW 2).1 0 =
      readArr stW 0 ∧
    readArr (calculate_energies_on_grid_st stW sitesW gridRW 2).1
        (calculate_energies_on_grid_st stW sitesW gridRW 2).2 =
      Set_of_Sites.calculate_energies_on_grid ⟨sitesW⟩
        ⟨readArr stW gridRW.xr, readArr stW gridRW.vr⟩ (readArr stW 2) ∧
    readArr (calculate_energies_on_grid_st
          (calculate_energies_on_grid_st stW sitesW gridRW 2).1 sitesW
          gridRW 2).1
        (calculate_energies_on_grid_st
          (calculate_energies_on_grid_st stW sitesW gridRW 2).1 sitesW
          gridRW 2).2 =
      readArr (calculate_energies_on_grid_st stW sitesW gridRW 2).1
        (calculate_energies_on_grid_st stW sitesW gridRW 2).2 ∧
    (calculate_probabilities_st stW sitesW gridRW 2 300).2 = stW.length ∧
    readArr (calculate_probabilities_st stW sitesW gridRW 2 300).1 0 =
      readArr stW 0 ∧
    readArr (calculate_probabilities_st stW sitesW gridRW 2 300).1
        (calculate_probabilities_st stW sitesW gridRW 2 300).2 =
      Set_of_Sites.calculate_probabilities ⟨sitesW⟩
        ⟨readArr stW gridRW.xr, readArr stW gridRW.vr⟩ (readArr stW 2)
        300 ∧
    readArr (calculate_probabilities_st
          (calculate_probabilities_st stW sitesW gridRW 2 300).1 sitesW
          gridRW 2 300).1
        (calculate_probabilities_st
          (calculate_probabilities_st stW sitesW gridRW 2 300).1 sitesW
          gridRW 2 300).2 =
      readArr (calculate_probabilities_st stW sitesW gridRW 2 300).1
        (calculate_probabilities_st stW sitesW gridRW 2 300).2 ∧
    (calculate_defect_density_st stW sitesW gridRW 2 300).2 = stW.length ∧
    readArr (calculate_defect_density_st stW sitesW gridRW 2 300).1 0 =
      readArr stW 0 ∧
    readArr (calculate_defect_density_st stW sitesW gridRW 2 300).1
        (calculate_defect_density_st stW sitesW gridRW 2 300).2 =
      Set_of_Sites.calculate_defect_density ⟨sitesW⟩
        ⟨readArr stW gridRW.xr, readArr stW gridRW.vr⟩ (readArr stW 2)
        300 ∧
    readArr (calculate_defect_density_st
          (calculate_defect_density_st stW sitesW gridRW 2 300).1 sitesW
          gridRW 2 300).1
        (calculate_defect_density_st
          (calculate_defect_density_st stW sitesW gridRW 2 300).1 sitesW
          gridRW 2 300).2 =
      readArr (calculate_defect_density_st stW sitesW gridRW 2 300).1
        (calculate_defect_density_st stW sitesW gridRW 2 300).2 ∧
    (subgrid_calculate_defect_density_st stW sitesW gridRW gridRW 2
        300).2 = stW.length ∧
    readArr (subgrid_calculate_defect_density_st stW sitesW gridRW gridRW 2
        300).1 0 = readArr stW 0 ∧
    readArr (subgrid_calculate_defect_density_st stW sitesW gridRW gridRW 2
          300).1
        (subgrid_calculate_defect_density_st stW sitesW gridRW gridRW 2
          300).2 =
      Set_of_Sites.subgrid_calculate_defect_density ⟨sitesW⟩
        ⟨readArr stW gridRW.xr, readArr stW gridRW.vr⟩
        ⟨readArr stW gridRW.xr, readArr stW gridRW.vr⟩ (readArr stW 2)
        300 ∧
    readArr (subgrid_calculate_defect_density_st
          (subgrid_calculate_defect_density_st stW sitesW gridRW gridRW 2
            300).1 sitesW gridRW gridRW 2 300).1
        (subgrid_calculate_defect_density_st
          (subgrid_calculate_defect_density_st stW sitesW gridRW gridRW 2
            300).1 sitesW gridRW gridRW 2 300).2 =
      readArr (subgrid_calculate_defect_density_st stW sitesW gridRW gridRW
          2 300).1
        (subgrid_calculate_defect_density_st stW sitesW gridRW gridRW 2
          300).2 :=
  c9_aggregation_not_mutating stW sitesW gridRW gridRW gridRW 2 300 0
    (by decide) (by decide) (by decide) (by decide) (by decide) (by decide)
    (by decide) (by decide)
